import Mathlib

/-!
Verification of the configuration-resolution and component-assembly layer of
`pushserver/management/commands/runpushserver.py` (django-pushserver).

The Python module is shallowly embedded: Python dicts become association
lists over `Value`, fallible code returns `Except Err`, and the mutable-heap
behaviour needed for the frame claim is modelled with an explicit heap of
dict cells at the end of the file.
-/

/-- Python values occurring in the configuration layer: strings, ints,
booleans, dicts, lists/tuples, plus the opaque objects constructed by the
factories (`memory.MemoryStore(**kwargs)`, `redis.RedisStore(**kwargs)`,
`registry.Registry(store)`), which we represent by their construction data. -/
inductive Value where
  | str : String → Value
  | intV : Int → Value
  | boolV : Bool → Value
  | dict : List (String × Value) → Value
  | list : List Value → Value
  | memStore : List (String × Value) → Value
  | redStore : List (String × Value) → Value
  | registryV : Value → Value

/-- A Python dict, as an association list (first occurrence of a key wins;
real Python dicts never hold duplicate keys, which theorems record with a
`dnodup` hypothesis where needed). -/
abbrev Dict := List (String × Value)

/-- Errors the embedded code can raise: `CommandError` (the module's
configuration errors), uncaught `KeyError` from dict indexing / `pop`, and
uncaught `TypeError`. -/
inductive Err where
  | commandError : String → Err
  | keyError : String → Err
  | typeError : String → Err
  deriving DecidableEq

/-- `d[k]` lookup: first entry with key `k`. -/
def dlookup : Dict → String → Option Value
  | [], _ => none
  | (k0, v0) :: rest, k => if k0 = k then some v0 else dlookup rest k

/-- `d[k] = v`: replace the first occurrence of `k` in place, else append. -/
def dinsert : Dict → String → Value → Dict
  | [], k, v => [(k, v)]
  | (k0, v0) :: rest, k, v =>
      if k0 = k then (k0, v) :: rest else (k0, v0) :: dinsert rest k v

/-- `d.update(u)`: insert every entry of `u` into `d`, in order. -/
def dupdate (d u : Dict) : Dict :=
  u.foldl (fun acc kv => dinsert acc kv.1 kv.2) d

/-- Remove the first occurrence of key `k`. -/
def derase : Dict → String → Dict
  | [], _ => []
  | (k0, v0) :: rest, k =>
      if k0 = k then rest else (k0, v0) :: derase rest k

/-- `d.pop(k)` / `d.pop(k, default)`: the popped value (if present) and the
remaining dict. -/
def dpop (d : Dict) (k : String) : Option Value × Dict :=
  match dlookup d k with
  | some v => (some v, derase d k)
  | none => (none, d)

/-- Keys of a dict, in order. -/
def dkeys (d : Dict) : List String := d.map Prod.fst

/-- The dict has no duplicate keys (true of every real Python dict). -/
def dnodup (d : Dict) : Prop := (dkeys d).Nodup

instance (d : Dict) : Decidable (dnodup d) := by
  unfold dnodup; infer_instance

/-- Python `str()` of a scalar value, as used by the module's `%s` error
formatting.  (`dict`/`list` reprs are abbreviated; no theorem relies on
them.) -/
def pyStr : Value → String
  | .str s => s
  | .intV n => toString n
  | .boolV true => "True"
  | .boolV false => "False"
  | .dict _ => "<dict>"
  | .list _ => "<list>"
  | .memStore _ => "<MemoryStore>"
  | .redStore _ => "<RedisStore>"
  | .registryV _ => "<Registry>"

/-- A value is hashable (usable as a Python dict key): everything here except
dicts and lists. -/
def pyHashable : Value → Bool
  | .dict _ => false
  | .list _ => false
  | _ => true

/-! ## Module-level constants (runpushserver.py, lines 17-61) -/

/-- `DEFAULT_PORT = "8001"`. -/
def DEFAULT_PORT : String := "8001"

/-- `default_store['redis']`. -/
def default_store_redis : Dict :=
  [("port", .intV 6379), ("host", .str "localhost"),
   ("key_prefix", .str ""), ("database", .intV 0)]

/-- `default_store['memory']`. -/
def default_store_memory : Dict :=
  [("min_messages", .intV 0), ("max_messages", .intV 0),
   ("message_timeout", .intV 0)]

/-- `default_location['subscriber']`. -/
def default_location_subscriber : Dict :=
  [("polling", .str "long"), ("create_on_get", .boolV false),
   ("store", .str "default")]

/-- `default_location['publisher']`. -/
def default_location_publisher : Dict :=
  [("create_on_post", .boolV true), ("store", .str "default")]

/-- `default_store.get(tv, \x7b\x7d)`: `default_store` has the string keys
`"redis"` and `"memory"`; any other hashable key misses and yields the empty
dict, while an unhashable key (a dict or list) raises `TypeError` in CPython. -/
def default_store_get (tv : Value) : Except Err Dict :=
  match tv with
  | .str s =>
      .ok (if s = "redis" then default_store_redis
           else if s = "memory" then default_store_memory else [])
  | .dict _ => .error (.typeError "unhashable type")
  | .list _ => .error (.typeError "unhashable type")
  | _ => .ok []

/-- `default_location.get(tv, \x7b\x7d)`, same conventions. -/
def default_location_get (tv : Value) : Except Err Dict :=
  match tv with
  | .str s =>
      .ok (if s = "subscriber" then default_location_subscriber
           else if s = "publisher" then default_location_publisher else [])
  | .dict _ => .error (.typeError "unhashable type")
  | .list _ => .error (.typeError "unhashable type")
  | _ => .ok []

/-! ## Store factory (lines 63-78) -/

/-- The merge step of `make_store` (lines 64-65):
`store_conf = default_store.get(store_dict['type'], \x7b\x7d).copy();
store_conf.update(store_dict)`.  Indexing `store_dict['type']` raises
`KeyError` when the key is absent. -/
def store_merge_conf (store_dict : Dict) : Except Err Dict :=
  match dlookup store_dict "type" with
  | none => .error (.keyError "type")
  | some tv =>
      match default_store_get tv with
      | .error e => .error e
      | .ok base => .ok (dupdate base store_dict)

/-- `make_store` (lines 63-78).  Returns the dict
`\x7b'store': store, 'registry': registry.Registry(store)\x7d`. -/
def make_store (store_dict : Dict) : Except Err Value :=
  match store_merge_conf store_dict with
  | .error e => .error e
  | .ok store_conf =>
      match dpop store_conf "type" with
      | (none, _) => .error (.keyError "type")
      | (some st, rest) =>
          match st with
          | .str s =>
              if s = "memory" then
                .ok (.dict [("store", .memStore rest),
                            ("registry", .registryV (.memStore rest))])
              else if s = "redis" then
                .ok (.dict [("store", .redStore rest),
                            ("registry", .registryV (.redStore rest))])
              else
                .error (.commandError ("Invalid store type \"" ++ s ++ "\"."))
          | v =>
              .error (.commandError ("Invalid store type \"" ++ pyStr v ++ "\"."))

/-! ## `make_stores` (lines 80-84) -/

/-- `make_store(stores_dict[k])`: the looked-up value must itself be a dict,
otherwise `store_dict['type']` raises `TypeError`. -/
def make_store_value (v : Value) : Except Err Value :=
  match v with
  | .dict d => make_store d
  | _ => .error (.typeError "store config is not a dict")

/-- The comprehension `dict([(k, make_store(stores_dict[k])) for k in
stores_dict])`: resolve each entry in order, stopping at the first error. -/
def resolve_stores_list : List (String × Value) → Except Err Dict
  | [] => .ok []
  | (k, v) :: rest =>
      match make_store_value v with
      | .error e => .error e
      | .ok rs =>
          match resolve_stores_list rest with
          | .error e => .error e
          | .ok others => .ok ((k, rs) :: others)

/-- `make_stores` (lines 80-84): a top-level `'type'` key means the whole
value is a single store config, registered under the name `"default"`. -/
def make_stores (stores_dict : Dict) : Except Err Dict :=
  if (dlookup stores_dict "type").isSome then
    resolve_stores_list [("default", Value.dict stores_dict)]
  else
    resolve_stores_list stores_dict

/-! ## Location factory (lines 86-111) -/

/-- The handler class selected by `make_location`'s dispatch:
`publisher.Publisher`, `subscriber.LongPollingSubscriber`, or
`subscriber.Subscriber`. -/
inductive HandlerCls where
  | publisherCls : HandlerCls
  | longPollingSubscriberCls : HandlerCls
  | subscriberCls : HandlerCls
  deriving DecidableEq

/-- The tuple `(url, cls, kwargs)` returned by `make_location`. -/
structure LocationBinding where
  url : Value
  cls : HandlerCls
  kwargs : Dict

/-- The merge step of `make_location` (lines 90-91):
`loc_conf = default_location.get(loc_dict['type'], \x7b\x7d).copy();
loc_conf.update(loc_dict)`. -/
def location_merge_conf (loc_dict : Dict) : Except Err Dict :=
  match dlookup loc_dict "type" with
  | none => .error (.keyError "type")
  | some tv =>
      match default_location_get tv with
      | .error e => .error e
      | .ok base => .ok (dupdate base loc_dict)

/-- The `loc_type` dispatch of `make_location` (lines 93-105): select the
handler class, consuming `polling` for subscribers.  `conf1` is the merged
config after `type` was popped. -/
def location_dispatch (lt : Value) (conf1 : Dict) : Except Err (HandlerCls × Dict) :=
  match lt with
  | .str s =>
      if s = "publisher" then .ok (.publisherCls, conf1)
      else if s = "subscriber" then
        match dpop conf1 "polling" with
        | (none, _) => .error (.keyError "polling")
        | (some pv, conf1b) =>
            match pv with
            | .str p =>
                if p = "long" then .ok (.longPollingSubscriberCls, conf1b)
                else if p = "interval" then .ok (.subscriberCls, conf1b)
                else .error (.commandError ("Invalid polling \"" ++ p ++ "\"."))
            | v => .error (.commandError ("Invalid polling \"" ++ pyStr v ++ "\"."))
      else .error (.commandError ("Invalid location type \"" ++ s ++ "\"."))
  | v => .error (.commandError ("Invalid location type \"" ++ pyStr v ++ "\"."))

/-- `stores[store_id]['registry']` (line 109): a `KeyError` on a missing
store name, a `TypeError` if the entry is not subscriptable. -/
def store_registry_lookup (sid : Value) (stores : Dict) : Except Err Value :=
  match sid with
  | .str s =>
      match dlookup stores s with
      | none => .error (.keyError s)
      | some rsv =>
          match rsv with
          | .dict rd =>
              match dlookup rd "registry" with
              | none => .error (.keyError "registry")
              | some r => .ok r
          | _ => .error (.typeError "store entry is not subscriptable")
  | v => .error (.keyError (pyStr v))

/-- Lines 107-110 of `make_location`:
`url = loc_conf.pop('url', loc_conf.pop('prefix','')+'(.+)')` (the inner pop
and the concatenation are evaluated eagerly, before the outer pop),
`store_id = loc_conf.pop('store')`,
`kwargs = \x7b'registry': stores[store_id]['registry']\x7d; kwargs.update(loc_conf)`.
`conf2` is the merged config with `type` (and `polling`) already popped. -/
def location_finish (conf2 : Dict) (stores : Dict) (cls : HandlerCls) :
    Except Err LocationBinding :=
  let pv := (dpop conf2 "prefix").1
  let conf3 := (dpop conf2 "prefix").2
  match pv.getD (.str "") with
  | .str p =>
      let defUrl := Value.str (p ++ "(.+)")
      let uv := (dpop conf3 "url").1
      let conf4 := (dpop conf3 "url").2
      let url := uv.getD defUrl
      match dpop conf4 "store" with
      | (none, _) => .error (.keyError "store")
      | (some sid, conf5) =>
          match store_registry_lookup sid stores with
          | .error e => .error e
          | .ok reg => .ok ⟨url, cls, dupdate [("registry", reg)] conf5⟩
  | _ => .error (.typeError "cannot concatenate non-string prefix value")

/-- `make_location` (lines 86-111).  `stores` is the resolved name-to-store
map; each entry's value is the dict `\x7b'store': ..., 'registry': ...\x7d`
produced by `make_store`. -/
def make_location (loc_dict : Dict) (stores : Dict) : Except Err LocationBinding :=
  match location_merge_conf loc_dict with
  | .error e => .error e
  | .ok conf0 =>
      match dpop conf0 "type" with
      | (none, _) => .error (.keyError "type")
      | (some lt, conf1) =>
          match location_dispatch lt conf1 with
          | .error e => .error e
          | .ok (cls, conf2) => location_finish conf2 stores cls

/-! ## Address resolver (`Command.handle`, lines 125-151)

`addrport` is matched against Django's `runserver.naiveip_re`:

  ^(?:(?P<addr>(?P<ipv4>\d\x7b1,3\x7d(?:\.\d\x7b1,3\x7d)\x7b3\x7d) |
     (?P<ipv6>\[[a-fA-F0-9:]+\]) |
     (?P<fqdn>[a-zA-Z0-9-]+(?:\.[a-zA-Z0-9-]+)*)):)?(?P<port>\d+)$

The bracketed-IPv6 alternative is the only one that can contain `:` or start
with `[`, and its character class excludes `]`, so an anchored match
decomposes deterministically: a string starting with `[` must split at the
first `]`, and any other string splits at its first `:` (or has no colon and
is all digits).  Python's `$` also matches just before one trailing
newline. -/

/-- The captured groups of a successful `naiveip_re` match. -/
structure NaiveIpMatch where
  addr : Option String
  isIpv4 : Bool
  isIpv6 : Bool
  isFqdn : Bool
  port : String
  deriving DecidableEq

/-- Split a character list at the first occurrence of `c` (none if absent). -/
def splitAtFirst (c : Char) : List Char → Option (List Char × List Char)
  | [] => none
  | x :: xs =>
      if x = c then some ([], xs)
      else
        match splitAtFirst c xs with
        | some (a, b) => some (x :: a, b)
        | none => none

/-- Nonempty and all decimal digits (the `port` group `\d+`). -/
def allDigitsL (l : List Char) : Bool :=
  !l.isEmpty && l.all (fun c => c.isDigit)

/-- A character of the bracketed-IPv6 class `[a-fA-F0-9:]`. -/
def isIpv6Char (c : Char) : Bool :=
  c.isDigit || (c ≥ 'a' && c ≤ 'f') || (c ≥ 'A' && c ≤ 'F') || c = ':'

/-- A character of the FQDN class `[a-zA-Z0-9-]`. -/
def isFqdnChar (c : Char) : Bool :=
  c.isAlphanum || c = '-'

/-- Split a character list on every occurrence of `c` (so `n` occurrences
yield `n + 1` groups, possibly empty). -/
def splitOnChar (c : Char) : List Char → List (List Char)
  | [] => [[]]
  | x :: xs =>
      if x = c then [] :: splitOnChar c xs
      else
        match splitOnChar c xs with
        | [] => [[x]]
        | g :: gs => (x :: g) :: gs

/-- Full match of the `ipv4` alternative `\d\x7b1,3\x7d(?:\.\d\x7b1,3\x7d)\x7b3\x7d`:
exactly four dot-separated runs of one to three digits. -/
def isIpv4Lit (s : String) : Bool :=
  let parts := splitOnChar '.' s.data
  parts.length = 4 &&
    parts.all (fun p => !p.isEmpty && p.length ≤ 3 && p.all (fun c => c.isDigit))

/-- Full match of the `fqdn` alternative `[a-zA-Z0-9-]+(?:\.[a-zA-Z0-9-]+)*`. -/
def isFqdnLit (s : String) : Bool :=
  !s.data.isEmpty &&
    (splitOnChar '.' s.data).all (fun p => !p.isEmpty && p.all isFqdnChar)

/-- Anchored match of `naiveip_re` against the exact string (no trailing
newline allowance yet). -/
def naiveipCore (s : String) : Option NaiveIpMatch :=
  match s.data with
  | '[' :: rest =>
      match splitAtFirst ']' rest with
      | none => none
      | some (inner, after) =>
          match after with
          | ':' :: pcs =>
              if !inner.isEmpty && inner.all isIpv6Char && allDigitsL pcs then
                some ⟨some (String.mk ('[' :: inner ++ [']'])), false, true, false,
                      String.mk pcs⟩
              else none
          | _ => none
  | cs =>
      match splitAtFirst ':' cs with
      | none => if allDigitsL cs then some ⟨none, false, false, false, s⟩ else none
      | some (acs, pcs) =>
          match allDigitsL pcs, isIpv4Lit (String.mk acs), isFqdnLit (String.mk acs) with
          | false, _, _ => none
          | true, true, _ =>
              some ⟨some (String.mk acs), true, false, false, String.mk pcs⟩
          | true, false, true =>
              some ⟨some (String.mk acs), false, false, true, String.mk pcs⟩
          | true, false, false => none

/-- `re.match(naiveip_re, s)`: the `$` anchor also matches immediately before
a single trailing newline. -/
def naiveipMatch (s : String) : Option NaiveIpMatch :=
  match naiveipCore s with
  | some m => some m
  | none =>
      if s.data.getLast? = some '\n' then naiveipCore (String.mk s.data.dropLast)
      else none

/-- The bind address computed by `Command.handle`: `self.addr`, `self.port`,
`self.use_ipv6`, `self._raw_ipv6`. -/
structure BindAddress where
  addr : String
  port : String
  use_ipv6 : Bool
  raw_ipv6 : Bool
  deriving DecidableEq

/-- Python `str.isdigit()`: nonempty and all digits. -/
def pyIsdigit (s : String) : Bool :=
  allDigitsL s.data

/-- Python `s[1:-1]`: drop the first and the last character. -/
def stripEnds (s : String) : String :=
  String.mk (s.data.drop 1).dropLast

/-- The final `if not self.addr:` defaulting at lines 148-150: an empty host
becomes `::1` or `127.0.0.1` according to the IPv6 flag, and `_raw_ipv6` is
reset to that flag. -/
def finishAddr (addr port : String) (use_ipv6 raw : Bool) : BindAddress :=
  if addr = "" then
    ⟨if use_ipv6 then "::1" else "127.0.0.1", port, use_ipv6, use_ipv6⟩
  else
    ⟨addr, port, use_ipv6, raw⟩

/-- `Command.handle` (lines 125-151), restricted to its address-resolution
behaviour: `addrport` and the `--ipv6` flag in, a `BindAddress` out (the
`socket.has_ipv6` environment check and the excess-positional-arguments check
are outside the model).  A `None` `addr` group is conflated with `""`, as the
code only ever tests its truthiness. -/
def Command.handle (addrport : String) (use_ipv6 : Bool) : Except Err BindAddress :=
  if addrport = "" then
    .ok (finishAddr "" DEFAULT_PORT use_ipv6 false)
  else
    match naiveipMatch addrport with
    | none =>
        .error (.commandError
          ("\"" ++ addrport ++ "\" is not a valid port number or address:port pair."))
    | some m =>
        if !pyIsdigit m.port then
          .error (.commandError ("\x27" ++ m.port ++ "\x27 is not a valid port number."))
        else
          let addr := m.addr.getD ""
          if addr ≠ "" then
            if m.isIpv6 then
              .ok (finishAddr (stripEnds addr) m.port true true)
            else if use_ipv6 && !m.isFqdn then
              .error (.commandError ("\"" ++ addr ++ "\" is not a valid IPv6 address."))
            else
              .ok (finishAddr addr m.port use_ipv6 false)
          else
            .ok (finishAddr addr m.port use_ipv6 false)

/-- The display rendering at line 168:
`self._raw_ipv6 and '[%s]' % self.addr or self.addr`, with Python truthiness
(`and`/`or` return operands; a string is falsy iff empty). -/
def renderAddr (b : BindAddress) : String :=
  if b.raw_ipv6 then
    (if ("[" ++ b.addr ++ "]") ≠ "" then "[" ++ b.addr ++ "]" else b.addr)
  else b.addr

/-! ## Server bootstrap (`Command.run`, lines 153-190) -/

/-- The `'store'` entry of `defaults` (lines 48-50). -/
def defaults_store : Dict := [("type", .str "memory")]

/-- The `'locations'` tuple of `defaults` (lines 51-60). -/
def default_locations_list : List Value :=
  [.dict [("type", .str "publisher"), ("prefix", .str "/publisher/")],
   .dict [("type", .str "subscriber"), ("prefix", .str "/subscriber/")]]

/-- `defaults` (lines 45-61). -/
def defaults : Dict :=
  [("port", .str DEFAULT_PORT),
   ("address", .str "127.0.0.1"),
   ("store", .dict defaults_store),
   ("locations", .list default_locations_list)]

/-- One element of the `map(functools.partial(make_location, stores=...),
conf['locations'])` call: the element must be a dict, else `loc_dict['type']`
raises `TypeError`. -/
def resolve_location_value (v : Value) (stores : Dict) : Except Err LocationBinding :=
  match v with
  | .dict ld => make_location ld stores
  | _ => .error (.typeError "location config is not a dict")

/-- The (Python 2, eager) `map` over `conf['locations']`, in order, stopping
at the first error. -/
def resolve_locations : List Value → Dict → Except Err (List LocationBinding)
  | [], _ => .ok []
  | v :: rest, stores =>
      match resolve_location_value v stores with
      | .error e => .error e
      | .ok b =>
          match resolve_locations rest stores with
          | .error e => .error e
          | .ok bs => .ok (b :: bs)

/-- Outcome of `Command.run`: either the HTTP server reached
`httpserver.HTTPServer(...).listen(conf['port'], conf['address'])` with the
given location bindings (the socket is bound), or assembly raised and the
socket was never bound. -/
inductive StartupResult where
  | bound : List LocationBinding → Value → Value → StartupResult
  | failed : Err → StartupResult

/-- `Command.run` (lines 153-190), from the point where `conf` is built:
`conf = defaults.copy()`, overlaid with the resolved port/address and with
`settings.PUSH_SERVER`; then `conf['store'] = make_stores(conf['store'])`,
`conf['locations'] = map(..., conf['locations'])`, and only afterwards the
listener binds.  Logging and stdout are outside the model. -/
def Command.run (port address : String) (push_server : Dict) : StartupResult :=
  let conf := dupdate defaults [("port", .str port), ("address", .str address)]
  let conf := dupdate conf push_server
  match dlookup conf "store" with
  | some (.dict sd) =>
      (match make_stores sd with
       | .error e => .failed e
       | .ok stores =>
          match dlookup conf "locations" with
          | some (.list lvs) =>
              (match resolve_locations lvs stores with
               | .error e => .failed e
               | .ok bs =>
                   .bound bs ((dlookup conf "port").getD (.str ""))
                            ((dlookup conf "address").getD (.str "")))
          | some _ => .failed (.typeError "locations value is not a sequence of dicts")
          | none => .failed (.keyError "locations"))
  | some _ => .failed (.typeError "store config is not a dict")
  | none => .failed (.keyError "store")

/-- `Command.handle` followed by `Command.run`: the whole startup path.  If
address resolution fails, `run` is never reached. -/
def Command.main (addrport : String) (use_ipv6 : Bool) (push_server : Dict) :
    StartupResult :=
  match Command.handle addrport use_ipv6 with
  | .error e => .failed e
  | .ok b => Command.run b.port b.addr push_server

/-! ## Association-list dict lemmas -/

theorem dlookup_none_of_not_mem {d : Dict} {k : String} (h : k ∉ dkeys d) :
    dlookup d k = none := by
  induction d with
  | nil => rfl
  | cons kv rest ih =>
      obtain ⟨k0, v0⟩ := kv
      simp only [dkeys, List.map_cons, List.mem_cons, not_or] at h
      simp only [dlookup]
      rw [if_neg (fun he => h.1 he.symm)]
      exact ih (by simpa [dkeys] using h.2)

theorem dlookup_dinsert (d : Dict) (k : String) (v : Value) (k' : String) :
    dlookup (dinsert d k v) k' = if k = k' then some v else dlookup d k' := by
  induction d with
  | nil => by_cases h : k = k' <;> simp [dinsert, dlookup, h]
  | cons kv rest ih =>
      obtain ⟨k0, v0⟩ := kv
      by_cases h0 : k0 = k
      · subst h0
        by_cases h1 : k0 = k' <;> simp [dinsert, dlookup, h1]
      · by_cases h1 : k0 = k'
        · subst h1
          have hne : ¬ k = k0 := fun he => h0 he.symm
          simp [dinsert, dlookup, h0, hne]
        · simp [dinsert, dlookup, h0, h1, ih]

theorem dkeys_dinsert_of_mem {d : Dict} {k : String} (v : Value)
    (h : k ∈ dkeys d) : dkeys (dinsert d k v) = dkeys d := by
  induction d with
  | nil => simp [dkeys] at h
  | cons kv rest ih =>
      obtain ⟨k0, v0⟩ := kv
      by_cases h0 : k0 = k
      · simp [dinsert, dkeys, h0]
      · have hm : k ∈ dkeys rest := by
          rcases (by simpa [dkeys] using h : k = k0 ∨ k ∈ dkeys rest) with h1 | h1
          · exact absurd h1.symm h0
          · exact h1
        have hih := ih hm
        simp only [dinsert, if_neg h0, dkeys, List.map_cons]
        simp only [dkeys] at hih
        rw [hih]

theorem dkeys_dinsert_of_not_mem {d : Dict} {k : String} (v : Value)
    (h : k ∉ dkeys d) : dkeys (dinsert d k v) = dkeys d ++ [k] := by
  induction d with
  | nil => simp [dinsert, dkeys]
  | cons kv rest ih =>
      obtain ⟨k0, v0⟩ := kv
      simp only [dkeys, List.map_cons, List.mem_cons, not_or] at h
      have hih := ih (by simpa [dkeys] using h.2)
      simp only [dinsert]
      rw [if_neg (fun he => h.1 he.symm)]
      simp only [dkeys, List.map_cons] at hih ⊢
      rw [hih]
      simp

theorem dnodup_dinsert {d : Dict} (k : String) (v : Value) (hd : dnodup d) :
    dnodup (dinsert d k v) := by
  by_cases h : k ∈ dkeys d
  · unfold dnodup
    rw [dkeys_dinsert_of_mem v h]
    exact hd
  · unfold dnodup
    rw [dkeys_dinsert_of_not_mem v h]
    simpa [List.nodup_append] using ⟨hd, h⟩

theorem dnodup_dupdate {d : Dict} (u : Dict) (hd : dnodup d) :
    dnodup (dupdate d u) := by
  induction u generalizing d with
  | nil => exact hd
  | cons kv rest ih => exact ih (dnodup_dinsert kv.1 kv.2 hd)

theorem dupdate_cons (d : Dict) (k : String) (v : Value) (u : Dict) :
    dupdate d ((k, v) :: u) = dupdate (dinsert d k v) u := rfl

theorem dlookup_dupdate (d : Dict) {u : Dict} (k : String) (hu : dnodup u) :
    dlookup (dupdate d u) k = (dlookup u k).or (dlookup d k) := by
  induction u generalizing d with
  | nil => simp [dupdate, dlookup]
  | cons kv rest ih =>
      obtain ⟨k0, v0⟩ := kv
      have hcons : k0 ∉ dkeys rest ∧ (dkeys rest).Nodup := by
        simpa [dnodup, dkeys] using hu
      rw [dupdate_cons, ih (dinsert d k0 v0) hcons.2]
      by_cases h0 : k0 = k
      · subst h0
        rw [dlookup_none_of_not_mem hcons.1]
        simp [dlookup, dlookup_dinsert]
      · simp [dlookup, dlookup_dinsert, h0]

theorem dlookup_derase {d : Dict} (k k' : String) (hd : dnodup d) :
    dlookup (derase d k) k' = if k = k' then none else dlookup d k' := by
  induction d with
  | nil => simp [derase, dlookup]
  | cons kv rest ih =>
      obtain ⟨k0, v0⟩ := kv
      have hcons : k0 ∉ dkeys rest ∧ (dkeys rest).Nodup := by
        simpa [dnodup, dkeys] using hd
      by_cases h0 : k0 = k
      · subst h0
        by_cases h1 : k0 = k'
        · subst h1
          simp [derase, dlookup, dlookup_none_of_not_mem hcons.1]
        · have hne : ¬ k0 = k' := h1
          simp [derase, dlookup, hne]
      · by_cases h1 : k0 = k'
        · subst h1
          have hne : ¬ k = k0 := fun he => h0 he.symm
          simp [derase, dlookup, h0, hne]
        · simp [derase, dlookup, h0, h1, ih hcons.2]

theorem dkeys_derase_sublist (d : Dict) (k : String) :
    List.Sublist (dkeys (derase d k)) (dkeys d) := by
  induction d with
  | nil => simp [derase, dkeys]
  | cons kv rest ih =>
      obtain ⟨k0, v0⟩ := kv
      by_cases h0 : k0 = k
      · simp only [derase, if_pos h0, dkeys, List.map_cons]
        exact List.sublist_cons_self k0 (dkeys rest)
      · simpa [derase, dkeys, h0] using ih.cons₂ k0

theorem dnodup_derase {d : Dict} (k : String) (hd : dnodup d) :
    dnodup (derase d k) :=
  List.Nodup.sublist (dkeys_derase_sublist d k) hd

theorem dlookup_derase_ne {d : Dict} (hd : dnodup d) {k k' : String} (h : k ≠ k') :
    dlookup (derase d k) k' = dlookup d k' := by
  rw [dlookup_derase k k' hd, if_neg h]

theorem dlookup_dupdate_user {base d : Dict} (hnd : dnodup d) {k : String} {v : Value}
    (h : dlookup d k = some v) : dlookup (dupdate base d) k = some v := by
  rw [dlookup_dupdate base k hnd, h]
  rfl

theorem dlookup_dupdate_base (base : Dict) {d : Dict} (hnd : dnodup d) {k : String}
    (h : dlookup d k = none) : dlookup (dupdate base d) k = dlookup base k := by
  rw [dlookup_dupdate base k hnd, h]
  rfl

/-! ## Symbolic facts about the factories -/

/-- The merge step of `make_store` succeeds whenever the entry has a
hashable `type` value, whatever that value is. -/
theorem store_merge_conf_ok {d : Dict} {tv : Value}
    (ht : dlookup d "type" = some tv) (hh : pyHashable tv = true) :
    ∃ base, default_store_get tv = .ok base ∧
      store_merge_conf d = .ok (dupdate base d) := by
  cases tv <;>
    simp_all [pyHashable, default_store_get, store_merge_conf]

/-- Likewise for the merge step of `make_location`. -/
theorem location_merge_conf_ok {d : Dict} {tv : Value}
    (ht : dlookup d "type" = some tv) (hh : pyHashable tv = true) :
    ∃ base, default_location_get tv = .ok base ∧
      location_merge_conf d = .ok (dupdate base d) := by
  cases tv <;>
    simp_all [pyHashable, default_location_get, location_merge_conf]

/-- `make_store` on a dict whose `type` value is a string other than
`"memory"`/`"redis"`: the factory raises `CommandError` naming the value. -/
theorem make_store_invalid_type {d : Dict} {t : String} (hnd : dnodup d)
    (ht : dlookup d "type" = some (.str t))
    (hm : t ≠ "memory") (hr : t ≠ "redis") :
    make_store d =
      .error (.commandError ("Invalid store type \"" ++ t ++ "\".")) := by
  simp only [make_store, store_merge_conf, ht, default_store_get]
  have hl : dlookup
      (dupdate (if t = "redis" then default_store_redis
                else if t = "memory" then default_store_memory else []) d)
      "type" = some (.str t) := dlookup_dupdate_user hnd ht
  simp only [dpop, hl]
  simp [hm, hr]

/-- `make_location` on a dict whose `type` value is a string other than
`"publisher"`/`"subscriber"`: `CommandError` naming the value. -/
theorem make_location_invalid_type {d : Dict} {t : String} (stores : Dict)
    (hnd : dnodup d) (ht : dlookup d "type" = some (.str t))
    (hp : t ≠ "publisher") (hs : t ≠ "subscriber") :
    make_location d stores =
      .error (.commandError ("Invalid location type \"" ++ t ++ "\".")) := by
  have hl : dlookup (dupdate [] d) "type" = some (.str t) :=
    dlookup_dupdate_user hnd ht
  simp [make_location, location_merge_conf, ht, default_location_get, dpop, hl,
        location_dispatch, hp, hs]

/-- A subscriber entry carrying a string `polling` value other than
`"long"`/`"interval"`: `CommandError` naming the value. -/
theorem make_location_invalid_polling {d : Dict} {p : String} (stores : Dict)
    (hnd : dnodup d)
    (ht : dlookup d "type" = some (.str "subscriber"))
    (hpoll : dlookup d "polling" = some (.str p))
    (h1 : p ≠ "long") (h2 : p ≠ "interval") :
    make_location d stores =
      .error (.commandError ("Invalid polling \"" ++ p ++ "\".")) := by
  have hM : dnodup (dupdate default_location_subscriber d) :=
    dnodup_dupdate d (by decide)
  have hl : dlookup (dupdate default_location_subscriber d) "type"
      = some (.str "subscriber") := dlookup_dupdate_user hnd ht
  have hp2 : dlookup (derase (dupdate default_location_subscriber d) "type") "polling"
      = some (.str p) := by
    rw [dlookup_derase_ne hM (by decide)]
    exact dlookup_dupdate_user hnd hpoll
  simp [make_location, location_merge_conf, ht, default_location_get, dpop, hl, hp2,
        location_dispatch, h1, h2]

/-- A publisher entry reduces `make_location` to `location_finish` on the
merged config with `type` popped. -/
theorem make_location_pub_path {d : Dict} (stores : Dict) (hnd : dnodup d)
    (ht : dlookup d "type" = some (.str "publisher")) :
    make_location d stores =
      location_finish (derase (dupdate default_location_publisher d) "type")
        stores .publisherCls := by
  have hl : dlookup (dupdate default_location_publisher d) "type"
      = some (.str "publisher") := dlookup_dupdate_user hnd ht
  simp [make_location, location_merge_conf, ht, default_location_get, dpop, hl,
        location_dispatch]

/-- A subscriber entry without a user `polling` key takes the default
`'polling': 'long'` and reduces to `location_finish` with the long-polling
class. -/
theorem make_location_sub_path_default {d : Dict} (stores : Dict) (hnd : dnodup d)
    (ht : dlookup d "type" = some (.str "subscriber"))
    (hpoll : dlookup d "polling" = none) :
    make_location d stores =
      location_finish
        (derase (derase (dupdate default_location_subscriber d) "type") "polling")
        stores .longPollingSubscriberCls := by
  have hM : dnodup (dupdate default_location_subscriber d) :=
    dnodup_dupdate d (by decide)
  have hl : dlookup (dupdate default_location_subscriber d) "type"
      = some (.str "subscriber") := dlookup_dupdate_user hnd ht
  have hp2 : dlookup (derase (dupdate default_location_subscriber d) "type") "polling"
      = some (.str "long") := by
    rw [dlookup_derase_ne hM (by decide)]
    rw [dlookup_dupdate default_location_subscriber "polling" hnd, hpoll]
    rfl
  simp [make_location, location_merge_conf, ht, default_location_get, dpop, hl, hp2,
        location_dispatch]

/-- `location_finish` on a merged config whose `store` value is a name absent
from the resolved store map: the unchecked `stores[store_id]` raises
`KeyError` carrying the missing name (no `CommandError` is involved). -/
theorem location_finish_missing_store {conf2 : Dict} {s : String} {stores : Dict}
    (cls : HandlerCls) (hnd : dnodup conf2)
    (hpre : dlookup conf2 "prefix" = none ∨ ∃ p, dlookup conf2 "prefix" = some (.str p))
    (hst : dlookup conf2 "store" = some (.str s))
    (hmiss : dlookup stores s = none) :
    location_finish conf2 stores cls = .error (.keyError s) := by
  rcases hpre with hpre | ⟨p, hpre⟩
  · rcases hu : dlookup conf2 "url" with _ | uv
    · have hst3 : dlookup conf2 "store" = some (.str s) := hst
      simp [location_finish, dpop, hpre, hu, hst3, store_registry_lookup, hmiss]
    · have hst4 : dlookup (derase conf2 "url") "store" = some (.str s) := by
        rw [dlookup_derase_ne hnd (by decide)]
        exact hst
      simp [location_finish, dpop, hpre, hu, hst4, store_registry_lookup, hmiss]
  · have hc3 : dnodup (derase conf2 "prefix") := dnodup_derase "prefix" hnd
    rcases hu : dlookup (derase conf2 "prefix") "url" with _ | uv
    · have hst3 : dlookup (derase conf2 "prefix") "store" = some (.str s) := by
        rw [dlookup_derase_ne hnd (by decide)]
        exact hst
      simp [location_finish, dpop, hpre, hu, hst3, store_registry_lookup, hmiss]
    · have hst4 : dlookup (derase (derase conf2 "prefix") "url") "store"
          = some (.str s) := by
        rw [dlookup_derase_ne hc3 (by decide), dlookup_derase_ne hnd (by decide)]
        exact hst
      simp [location_finish, dpop, hpre, hu, hst4, store_registry_lookup, hmiss]

/-! ## Run-level reduction helpers -/

/-- The backend of the default in-memory store: after merging
`\x7b'type': 'memory'\x7d` with the memory defaults and popping `type`, the
constructor arguments are exactly the memory defaults. -/
def default_memory_backend : Value := .memStore default_store_memory

/-- The resolved store map for the built-in default configuration. -/
def default_resolved_stores : Dict :=
  [("default", .dict [("store", default_memory_backend),
                      ("registry", .registryV default_memory_backend)])]

theorem make_stores_defaults_eq :
    make_stores defaults_store = .ok default_resolved_stores := rfl

/-- With only `'locations'` overridden in `PUSH_SERVER`, `Command.run`
resolves the default store and then maps `make_location` over the supplied
locations. -/
theorem run_locations_override (lvs : List Value) :
    Command.run "8001" "127.0.0.1" [("locations", .list lvs)] =
      match resolve_locations lvs default_resolved_stores with
      | .error e => .failed e
      | .ok bs => .bound bs (.str "8001") (.str "127.0.0.1") := rfl

/-- With only `'store'` overridden in `PUSH_SERVER`, `Command.run` first
resolves that store config, then the default locations. -/
theorem run_store_override (sd : Dict) :
    Command.run "8001" "127.0.0.1" [("store", .dict sd)] =
      match make_stores sd with
      | .error e => .failed e
      | .ok stores =>
          match resolve_locations default_locations_list stores with
          | .error e => .failed e
          | .ok bs => .bound bs (.str "8001") (.str "127.0.0.1") := rfl

/-- An empty `addrport` with the IPv6 flag unset resolves to
`127.0.0.1:8001` and proceeds to `Command.run`. -/
theorem main_default_addr (ps : Dict) :
    Command.main "" false ps = Command.run "8001" "127.0.0.1" ps := rfl

/-- When the top-level stores value has a `type` key, `make_stores` resolves
it as the single store named `"default"`. -/
theorem make_stores_single {sd : Dict} (h : (dlookup sd "type").isSome = true) :
    make_stores sd = (make_store sd).map (fun rs => [("default", rs)]) := by
  simp only [make_stores, if_pos h, resolve_stores_list, make_store_value]
  cases make_store sd <;> rfl

/-! ## Facts about the address regex model -/

theorem string_data_mk (l : List Char) : (String.mk l).data = l := rfl

theorem naiveipCore_port_digits {s : String} {m : NaiveIpMatch}
    (h : naiveipCore s = some m) : pyIsdigit m.port = true := by
  unfold naiveipCore at h
  iterate 8 (all_goals (try split at h))
  all_goals (try (simp only [Option.some.injEq] at h))
  all_goals (try subst h)
  all_goals simp_all [pyIsdigit, allDigitsL, string_data_mk]

theorem naiveip_port_digits {s : String} {m : NaiveIpMatch}
    (h : naiveipMatch s = some m) : pyIsdigit m.port = true := by
  unfold naiveipMatch at h
  split at h
  · rename_i m0 heq
    cases h
    exact naiveipCore_port_digits heq
  · split at h
    · exact naiveipCore_port_digits h
    · simp at h

theorem naiveipCore_addr_ne {s : String} {m : NaiveIpMatch} {a : String}
    (h : naiveipCore s = some m) (ha : m.addr = some a) : a ≠ "" := by
  unfold naiveipCore at h
  iterate 8 (all_goals (try split at h))
  all_goals (try (simp only [Option.some.injEq] at h))
  all_goals (try subst h)
  all_goals (try (simp at h))
  all_goals (simp only [NaiveIpMatch.addr, Option.some.injEq] at ha)
  · subst ha
    intro hc
    have hd := congrArg String.data hc
    simp [string_data_mk] at hd
  · simp at ha
  · subst ha
    intro hc
    have hd := congrArg String.data hc
    simp only [string_data_mk, String.data] at hd
    subst hd
    exact absurd ‹isIpv4Lit (String.mk []) = true› (by decide)
  · subst ha
    intro hc
    have hd := congrArg String.data hc
    simp only [string_data_mk, String.data] at hd
    subst hd
    exact absurd ‹isFqdnLit (String.mk []) = true› (by decide)

theorem naiveip_addr_ne {s : String} {m : NaiveIpMatch} {a : String}
    (h : naiveipMatch s = some m) (ha : m.addr = some a) : a ≠ "" := by
  unfold naiveipMatch at h
  split at h
  · rename_i m0 heq
    cases h
    exact naiveipCore_addr_ne heq ha
  · split at h
    · exact naiveipCore_addr_ne h ha
    · simp at h

/-! ## Symbolic facts about `Command.handle` -/

theorem bracket_ne_empty (x : String) : ("[" ++ x ++ "]") ≠ "" := by
  intro h
  have hd := congrArg String.data h
  simp [String.data_append] at hd

theorem handle_no_match {s : String} (u6 : Bool) (hs : s ≠ "")
    (h : naiveipMatch s = none) :
    Command.handle s u6 =
      .error (.commandError
        ("\"" ++ s ++ "\" is not a valid port number or address:port pair.")) := by
  simp [Command.handle, hs, h]

theorem handle_empty_host {s : String} {m : NaiveIpMatch} (u6 : Bool) (hs : s ≠ "")
    (h : naiveipMatch s = some m) (ha : m.addr = none) :
    Command.handle s u6 =
      .ok ⟨if u6 then "::1" else "127.0.0.1", m.port, u6, u6⟩ := by
  have hd := naiveip_port_digits h
  simp [Command.handle, hs, h, hd, ha, finishAddr]

theorem handle_bracketed {s a : String} {m : NaiveIpMatch} (u6 : Bool) (hs : s ≠ "")
    (h : naiveipMatch s = some m) (ha : m.addr = some a) (h6 : m.isIpv6 = true)
    (hne : stripEnds a ≠ "") :
    Command.handle s u6 = .ok ⟨stripEnds a, m.port, true, true⟩ := by
  have hd := naiveip_port_digits h
  have hane := naiveip_addr_ne h ha
  simp [Command.handle, hs, h, hd, ha, h6, finishAddr, hane, hne]

theorem handle_ipv6_flag_bad_host {s a : String} {m : NaiveIpMatch} (hs : s ≠ "")
    (h : naiveipMatch s = some m) (ha : m.addr = some a)
    (h6 : m.isIpv6 = false) (hf : m.isFqdn = false) :
    Command.handle s true =
      .error (.commandError ("\"" ++ a ++ "\" is not a valid IPv6 address.")) := by
  have hd := naiveip_port_digits h
  have hane := naiveip_addr_ne h ha
  simp [Command.handle, hs, h, hd, ha, h6, hf, hane]

theorem renderAddr_eq (b : BindAddress) :
    renderAddr b = if b.raw_ipv6 then "[" ++ b.addr ++ "]" else b.addr := by
  unfold renderAddr
  by_cases hr : b.raw_ipv6 <;> simp [hr, bracket_ne_empty]

/-- `map` over the locations resolves positions one-to-one, in order. -/
theorem resolve_locations_nth {lvs : List Value} {stores : Dict}
    {bs : List LocationBinding} (h : resolve_locations lvs stores = .ok bs) :
    bs.length = lvs.length ∧
      ∀ (i : Nat) (b : LocationBinding), bs[i]? = some b →
        ∃ v, lvs[i]? = some v ∧ resolve_location_value v stores = .ok b := by
  induction lvs generalizing bs with
  | nil =>
      simp only [resolve_locations, Except.ok.injEq] at h
      subst h
      exact ⟨rfl, by intro i b hb; simp at hb⟩
  | cons v rest ih =>
      unfold resolve_locations at h
      split at h
      · exact absurd h (by simp)
      · rename_i b0 hb0
        split at h
        · exact absurd h (by simp)
        · rename_i bs0 hbs0
          simp only [Except.ok.injEq] at h
          subst h
          obtain ⟨hlen, hnth⟩ := ih hbs0
          refine ⟨by simp [hlen], ?_⟩
          intro i b hb
          cases i with
          | zero =>
              simp only [List.getElem?_cons_zero, Option.some.injEq] at hb
              subst hb
              exact ⟨v, by simp, hb0⟩
          | succ n =>
              simp only [List.getElem?_cons_succ] at hb ⊢
              exact hnth n b hb

/-! ## Heap model for the frame claim

The pure embedding above cannot state the Python question "do the factories
mutate the module-level default dicts or their argument dicts?", so the same
source lines (63-78, 86-111, 80-84) are embedded once more against an
explicit heap of dict cells.  Addresses 0-3 hold the four module-level
default bundles, factory arguments are passed by address, `.copy()`
allocates a fresh cell, and every `update`/`pop` writes only to that fresh
cell. -/

structure Heap where
  mem : Nat → Dict
  next : Nat

/-- Dereference a cell. -/
def Heap.read (h : Heap) (a : Nat) : Dict := h.mem a

/-- Overwrite a cell in place. -/
def Heap.write (h : Heap) (a : Nat) (d : Dict) : Heap :=
  ⟨fun i => if i = a then d else h.mem i, h.next⟩

/-- Allocate a fresh cell holding `d`; returns the new heap and the address. -/
def Heap.alloc (h : Heap) (d : Dict) : Heap × Nat :=
  (⟨fun i => if i = h.next then d else h.mem i, h.next + 1⟩, h.next)

/-- Fixed addresses of the module-level default dicts:
`default_store['redis']` at 0, `default_store['memory']` at 1,
`default_location['subscriber']` at 2, `default_location['publisher']` at 3. -/
def default_store_addr (tv : Value) : Option Nat :=
  match tv with
  | .str s => if s = "redis" then some 0 else if s = "memory" then some 1 else none
  | _ => none

/-- See `default_store_addr`. -/
def default_location_addr (tv : Value) : Option Nat :=
  match tv with
  | .str s =>
      if s = "subscriber" then some 2 else if s = "publisher" then some 3 else none
  | _ => none

/-- Heap-level `default_store.get(store_dict['type'], \x7b\x7d)`: the
referenced default cell is only read, never written. -/
def heap_default_store_get (h : Heap) (tv : Value) : Except Err Dict :=
  match tv with
  | .dict _ => .error (.typeError "unhashable type")
  | .list _ => .error (.typeError "unhashable type")
  | _ =>
      .ok (match default_store_addr tv with
           | some a => h.read a
           | none => [])

/-- Heap-level `default_location.get(loc_dict['type'], \x7b\x7d)`. -/
def heap_default_location_get (h : Heap) (tv : Value) : Except Err Dict :=
  match tv with
  | .dict _ => .error (.typeError "unhashable type")
  | .list _ => .error (.typeError "unhashable type")
  | _ =>
      .ok (match default_location_addr tv with
           | some a => h.read a
           | none => [])

/-- Heap-level `make_store` (lines 63-78): the argument dict lives at
address `a`; `.copy()` allocates the cell `c` and `update`/`pop` write only
to `c`. -/
def make_store_st (h : Heap) (a : Nat) : Heap × Except Err Value :=
  let store_dict := h.read a
  match dlookup store_dict "type" with
  | none => (h, .error (.keyError "type"))
  | some tv =>
      match heap_default_store_get h tv with
      | .error e => (h, .error e)
      | .ok base =>
          let h1 := (h.alloc base).1
          let c := (h.alloc base).2
          let h2 := h1.write c (dupdate (h1.read c) store_dict)
          match dlookup (h2.read c) "type" with
          | none => (h2, .error (.keyError "type"))
          | some st =>
              let h3 := h2.write c (derase (h2.read c) "type")
              let rest := h3.read c
              match st with
              | .str s =>
                  if s = "memory" then
                    (h3, .ok (.dict [("store", .memStore rest),
                                     ("registry", .registryV (.memStore rest))]))
                  else if s = "redis" then
                    (h3, .ok (.dict [("store", .redStore rest),
                                     ("registry", .registryV (.redStore rest))]))
                  else
                    (h3, .error (.commandError ("Invalid store type \"" ++ s ++ "\".")))
              | v =>
                  (h3, .error (.commandError ("Invalid store type \"" ++ pyStr v ++ "\".")))

/-- Heap-level `loc_type` dispatch (lines 93-105): for subscribers,
`loc_conf.pop('polling')` writes the copy cell `c`. -/
def heap_dispatch (lt : Value) (h : Heap) (c : Nat) : Heap × Except Err HandlerCls :=
  match lt with
  | .str s =>
      if s = "publisher" then (h, .ok .publisherCls)
      else if s = "subscriber" then
        match dpop (h.read c) "polling" with
        | (none, _) => (h, .error (.keyError "polling"))
        | (some pv, conf1b) =>
            let h2 := h.write c conf1b
            match pv with
            | .str p =>
                if p = "long" then (h2, .ok .longPollingSubscriberCls)
                else if p = "interval" then (h2, .ok .subscriberCls)
                else (h2, .error (.commandError ("Invalid polling \"" ++ p ++ "\".")))
            | v => (h2, .error (.commandError ("Invalid polling \"" ++ pyStr v ++ "\".")))
      else (h, .error (.commandError ("Invalid location type \"" ++ s ++ "\".")))
  | v => (h, .error (.commandError ("Invalid location type \"" ++ pyStr v ++ "\".")))

/-- Heap-level lines 107-110: the pops write the copy cell `c`; the kwargs
literal allocates a fresh cell which `kwargs.update(loc_conf)` then writes. -/
def heap_location_finish (h : Heap) (c : Nat) (stores : Dict) (cls : HandlerCls) :
    Heap × Except Err LocationBinding :=
  let pv := (dpop (h.read c) "prefix").1
  let h3 := h.write c (dpop (h.read c) "prefix").2
  match pv.getD (.str "") with
  | .str p =>
      let defUrl := Value.str (p ++ "(.+)")
      let uv := (dpop (h3.read c) "url").1
      let h4 := h3.write c (dpop (h3.read c) "url").2
      let url := uv.getD defUrl
      match dpop (h4.read c) "store" with
      | (none, _) => (h4, .error (.keyError "store"))
      | (some sid, c5) =>
          let h5 := h4.write c c5
          match store_registry_lookup sid stores with
          | .error e => (h5, .error e)
          | .ok reg =>
              let h6 := (h5.alloc [("registry", reg)]).1
              let kc := (h5.alloc [("registry", reg)]).2
              let h7 := h6.write kc (dupdate (h6.read kc) (h6.read c))
              (h7, .ok ⟨url, cls, h7.read kc⟩)
  | _ => (h3, .error (.typeError "cannot concatenate non-string prefix value"))

/-- Heap-level `make_location` (lines 86-111). -/
def make_location_st (h : Heap) (a : Nat) (stores : Dict) :
    Heap × Except Err LocationBinding :=
  let loc_dict := h.read a
  match dlookup loc_dict "type" with
  | none => (h, .error (.keyError "type"))
  | some tv =>
      match heap_default_location_get h tv with
      | .error e => (h, .error e)
      | .ok base =>
          let (h1, c) := h.alloc base
          let h2 := h1.write c (dupdate (h1.read c) loc_dict)
          match dpop (h2.read c) "type" with
          | (none, _) => (h2, .error (.keyError "type"))
          | (some lt, conf1) =>
              let h3 := h2.write c conf1
              match heap_dispatch lt h3 c with
              | (h4, .error e) => (h4, .error e)
              | (h4, .ok cls) => heap_location_finish h4 c stores cls

/-- Heap-level `make_stores` comprehension over name-to-address entries. -/
def make_stores_st : Heap → List (String × Nat) → Heap × Except Err Dict
  | h, [] => (h, .ok [])
  | h, (k, a) :: rest =>
      match make_store_st h a with
      | (h', .error e) => (h', .error e)
      | (h', .ok rs) =>
          match make_stores_st h' rest with
          | (h'', .error e) => (h'', .error e)
          | (h'', .ok others) => (h'', .ok ((k, rs) :: others))

/-! ## Heap lemmas -/

/-- Every cell allocated before stays unchanged; the frontier only advances. -/
def heapFrame (h h' : Heap) : Prop :=
  h.next ≤ h'.next ∧ ∀ i, i < h.next → h'.read i = h.read i

theorem heapFrame_refl (h : Heap) : heapFrame h h :=
  ⟨le_refl _, fun _ _ => rfl⟩

theorem heapFrame_trans {g1 g2 g3 : Heap} (a : heapFrame g1 g2)
    (b : heapFrame g2 g3) : heapFrame g1 g3 :=
  ⟨le_trans a.1 b.1, fun i hi => (b.2 i (lt_of_lt_of_le hi a.1)).trans (a.2 i hi)⟩

theorem read_write_ne {h : Heap} {i a : Nat} (hne : i ≠ a) (d : Dict) :
    (h.write a d).read i = h.read i := by
  simp [Heap.read, Heap.write, hne]

theorem read_write_self (h : Heap) (a : Nat) (d : Dict) :
    (h.write a d).read a = d := by
  simp [Heap.read, Heap.write]

theorem read_alloc_ne {h : Heap} {i : Nat} (hne : i ≠ h.next) (d : Dict) :
    ((h.alloc d).1).read i = h.read i := by
  simp [Heap.read, Heap.alloc, hne]

theorem read_alloc_self (h : Heap) (d : Dict) :
    ((h.alloc d).1).read (h.alloc d).2 = d := by
  simp [Heap.read, Heap.alloc]

theorem frame_alloc (h : Heap) (d : Dict) : heapFrame h (h.alloc d).1 :=
  ⟨Nat.le_succ _, fun _ hi => read_alloc_ne (Nat.ne_of_lt hi) d⟩

theorem frame_write_new {h0 h : Heap} (hf : heapFrame h0 h) {c : Nat}
    (hc : h0.next ≤ c) (d : Dict) : heapFrame h0 (h.write c d) :=
  ⟨hf.1, fun i hi => by
    rw [read_write_ne (by omega) d]
    exact hf.2 i hi⟩

theorem frame_alloc_write (h : Heap) (b x : Dict) :
    heapFrame h (((h.alloc b).1).write (h.alloc b).2 x) :=
  frame_write_new (frame_alloc h b) (le_refl _) x

theorem frame_alloc_write2 (h : Heap) (b x y : Dict) :
    heapFrame h ((((h.alloc b).1).write (h.alloc b).2 x).write (h.alloc b).2 y) :=
  frame_write_new (frame_alloc_write h b x) (le_refl _) y

/-- `make_store` writes nothing but the cell it allocates for the copy. -/
theorem make_store_st_frame (h : Heap) (a : Nat) :
    heapFrame h (make_store_st h a).1 := by
  unfold make_store_st
  dsimp only
  repeat' split
  all_goals first
    | exact heapFrame_refl _
    | exact frame_alloc_write _ _ _
    | exact frame_alloc_write2 _ _ _ _

/-- The dispatch stage writes only the copy cell `c`. -/
theorem heap_dispatch_frame {h0 h : Heap} (lt : Value) (c : Nat)
    (hf : heapFrame h0 h) (hc : h0.next ≤ c) :
    heapFrame h0 (heap_dispatch lt h c).1 := by
  unfold heap_dispatch
  dsimp only
  repeat' split
  all_goals first
    | exact hf
    | exact frame_write_new hf hc _

/-- The finish stage writes only the copy cell `c` and the freshly allocated
kwargs cell. -/
theorem heap_location_finish_frame {h0 h : Heap} (c : Nat) (stores : Dict)
    (cls : HandlerCls) (hf : heapFrame h0 h) (hc : h0.next ≤ c) :
    heapFrame h0 (heap_location_finish h c stores cls).1 := by
  have hf3 : heapFrame h0 (h.write c (dpop (h.read c) "prefix").2) :=
    frame_write_new hf hc _
  unfold heap_location_finish
  dsimp only
  split
  · split
    · exact frame_write_new hf3 hc _
    · split
      · exact frame_write_new (frame_write_new hf3 hc _) hc _
      · apply frame_write_new
        · apply heapFrame_trans _ (frame_alloc _ _)
          exact frame_write_new (frame_write_new hf3 hc _) hc _
        · exact hf.1
  · exact hf3

/-- `make_location` writes only its two fresh cells (copy and kwargs). -/
theorem make_location_st_frame (h : Heap) (a : Nat) (stores : Dict) :
    heapFrame h (make_location_st h a stores).1 := by
  unfold make_location_st
  dsimp only
  split
  · exact heapFrame_refl _
  · split
    · exact heapFrame_refl _
    · split
      · exact frame_alloc_write _ _ _
      · split
        · rename_i h4 e heq
          have h14 := congrArg Prod.fst heq
          dsimp at h14
          rw [← h14]
          exact heap_dispatch_frame _ _ (frame_alloc_write2 _ _ _ _) (le_refl _)
        · rename_i h4 cls heq
          have h14 := congrArg Prod.fst heq
          dsimp at h14
          rw [← h14]
          exact heap_location_finish_frame _ stores cls
            (heap_dispatch_frame _ _ (frame_alloc_write2 _ _ _ _) (le_refl _))
            (le_refl _)

/-- `make_stores` at heap level only ever extends the heap. -/
theorem make_stores_st_frame (h : Heap) (entries : List (String × Nat)) :
    heapFrame h (make_stores_st h entries).1 := by
  induction entries generalizing h with
  | nil => exact heapFrame_refl h
  | cons e rest ih =>
      obtain ⟨k, a⟩ := e
      unfold make_stores_st
      split
      · rename_i h' e' heq
        have h14 := congrArg Prod.fst heq
        dsimp at h14
        rw [← h14]
        exact make_store_st_frame h a
      · rename_i h' rs heq
        have hf1 : heapFrame h h' := by
          have h14 := congrArg Prod.fst heq
          dsimp at h14
          rw [← h14]
          exact make_store_st_frame h a
        split
        · rename_i h2 e2 heq2
          have hf2 : heapFrame h' h2 := by
            have h24 := congrArg Prod.fst heq2
            dsimp at h24
            rw [← h24]
            exact ih h'
          exact heapFrame_trans hf1 hf2
        · rename_i h2 os heq2
          have hf2 : heapFrame h' h2 := by
            have h24 := congrArg Prod.fst heq2
            dsimp at h24
            rw [← h24]
            exact ih h'
          exact heapFrame_trans hf1 hf2

/-! ## The heap embedding computes the pure embedding -/

theorem heap_default_store_get_spec {h : Heap}
    (h0 : h.read 0 = default_store_redis) (h1 : h.read 1 = default_store_memory)
    (tv : Value) : heap_default_store_get h tv = default_store_get tv := by
  cases tv with
  | str s =>
      by_cases hr : s = "redis" <;> by_cases hm : s = "memory" <;>
        simp [heap_default_store_get, default_store_get, default_store_addr,
              hr, hm, h0, h1]
  | intV n => rfl
  | boolV b => rfl
  | dict d => rfl
  | list l => rfl
  | memStore d => rfl
  | redStore d => rfl
  | registryV v => rfl

theorem heap_default_location_get_spec {h : Heap}
    (h2 : h.read 2 = default_location_subscriber)
    (h3 : h.read 3 = default_location_publisher)
    (tv : Value) : heap_default_location_get h tv = default_location_get tv := by
  cases tv with
  | str s =>
      by_cases hs : s = "subscriber" <;> by_cases hp : s = "publisher" <;>
        simp [heap_default_location_get, default_location_get, default_location_addr,
              hs, hp, h2, h3]
  | intV n => rfl
  | boolV b => rfl
  | dict d => rfl
  | list l => rfl
  | memStore d => rfl
  | redStore d => rfl
  | registryV v => rfl

/-- When the default cells hold the module-level defaults, the heap-level
store factory computes exactly the pure `make_store` of the argument cell. -/
theorem make_store_st_spec {h : Heap} (a : Nat)
    (h0 : h.read 0 = default_store_redis) (h1 : h.read 1 = default_store_memory) :
    (make_store_st h a).2 = make_store (h.read a) := by
  unfold make_store_st make_store store_merge_conf
  dsimp only
  cases hdl : dlookup (h.read a) "type" with
  | none => rfl
  | some tv =>
      dsimp only
      rw [heap_default_store_get_spec h0 h1]
      cases hbase : default_store_get tv with
      | error e => rfl
      | ok base =>
          dsimp only
          simp only [read_alloc_self, read_write_self, dpop]
          cases hdt : dlookup (dupdate base (h.read a)) "type" with
          | none => rfl
          | some st =>
              cases st with
              | str s =>
                  by_cases hm : s = "memory" <;> by_cases hr : s = "redis" <;>
                    simp [hm, hr]
              | intV n => rfl
              | boolV b => rfl
              | dict d => rfl
              | list l => rfl
              | memStore d => rfl
              | redStore d => rfl
              | registryV v => rfl

theorem heap_dispatch_next (lt : Value) (h : Heap) (c : Nat) :
    ((heap_dispatch lt h c).1).next = h.next := by
  unfold heap_dispatch
  dsimp only
  repeat' split
  all_goals rfl

/-- The dispatch stage agrees with the pure `location_dispatch` on the
result, and on success leaves the popped config in the cell. -/
theorem heap_dispatch_spec (lt : Value) (h : Heap) (c : Nat) :
    (match location_dispatch lt (h.read c) with
     | .error e => (heap_dispatch lt h c).2 = .error e
     | .ok p => (heap_dispatch lt h c).2 = .ok p.1 ∧
         ((heap_dispatch lt h c).1).read c = p.2) := by
  unfold heap_dispatch location_dispatch
  dsimp only
  repeat' split
  any_goals simp_all [read_write_self]
  case h_2.h_1.isTrue =>
    rename_i hp hcond
    rw [← hp]
    exact ⟨rfl, rfl⟩
  case h_2.h_1.isFalse.isTrue.h_2.h_1.isTrue =>
    rename_i hp hc1 hd hc2
    rw [← hp]
    exact ⟨rfl, rfl⟩
  case h_2.h_1.isFalse.isTrue.h_2.h_1.isFalse.isTrue =>
    rename_i hp hc1 hd hc2
    rw [← hp]
    exact ⟨rfl, rfl⟩

theorem read_alloc3 (h : Heap) {c : Nat} (hc : c < h.next) (x y z d : Dict) :
    (((((h.write c x).write c y).write c z).alloc d).1).read c = z := by
  rw [read_alloc_ne]
  · exact read_write_self _ c z
  · exact Nat.ne_of_lt hc

/-- The finish stage on a valid cell agrees with the pure `location_finish`
of the cell contents. -/
theorem heap_location_finish_spec (h : Heap) {c : Nat} (hc : c < h.next)
    (stores : Dict) (cls : HandlerCls) :
    (heap_location_finish h c stores cls).2 = location_finish (h.read c) stores cls := by
  unfold heap_location_finish location_finish
  dsimp only
  simp only [read_write_self]
  split
  · split
    · rfl
    · split
      · rfl
      · simp only [read_alloc_self, read_write_self, read_alloc3 h hc]
  · rfl


/-- When the default cells hold the module-level defaults, the heap-level
location factory computes exactly the pure `make_location` of the argument
cell. -/
theorem make_location_st_spec {h : Heap} (a : Nat) (stores : Dict)
    (h2 : h.read 2 = default_location_subscriber)
    (h3 : h.read 3 = default_location_publisher) :
    (make_location_st h a stores).2 = make_location (h.read a) stores := by
  unfold make_location_st make_location location_merge_conf
  dsimp only
  cases hdl : dlookup (h.read a) "type" with
  | none => rfl
  | some tv =>
      dsimp only
      rw [heap_default_location_get_spec h2 h3]
      cases hbase : default_location_get tv with
      | error e => rfl
      | ok base =>
          dsimp only
          simp only [read_alloc_self, read_write_self, dpop]
          cases hdt : dlookup (dupdate base (h.read a)) "type" with
          | none => rfl
          | some lt =>
              dsimp only
              have hds := heap_dispatch_spec lt
                (((h.alloc base).1.write (h.alloc base).2
                    (dupdate base (h.read a))).write (h.alloc base).2
                  (derase (dupdate base (h.read a)) "type"))
                (h.alloc base).2
              rw [read_write_self] at hds
              cases hld : location_dispatch lt
                  (derase (dupdate base (h.read a)) "type") with
              | error e =>
                  rw [hld] at hds
                  dsimp only at hds
                  cases hpd : heap_dispatch lt
                      (((h.alloc base).1.write (h.alloc base).2
                          (dupdate base (h.read a))).write (h.alloc base).2
                        (derase (dupdate base (h.read a)) "type"))
                      (h.alloc base).2 with
                  | mk h4 r =>
                      rw [hpd] at hds
                      dsimp only at hds
                      subst hds
                      rfl
              | ok p =>
                  rw [hld] at hds
                  dsimp only at hds
                  cases hpd : heap_dispatch lt
                      (((h.alloc base).1.write (h.alloc base).2
                          (dupdate base (h.read a))).write (h.alloc base).2
                        (derase (dupdate base (h.read a)) "type"))
                      (h.alloc base).2 with
                  | mk h4 r =>
                      rw [hpd] at hds
                      dsimp only at hds
                      obtain ⟨hds1, hds2⟩ := hds
                      subst hds1
                      have hc4 : (h.alloc base).2 < h4.next := by
                        have hfn := congrArg (fun q => Heap.next q.1) hpd
                        dsimp only at hfn
                        rw [heap_dispatch_next] at hfn
                        exact lt_of_lt_of_eq (Nat.lt_succ_self h.next) hfn
                      rw [heap_location_finish_spec h4 hc4 stores p.1, hds2]

/-! ## Assembled helper facts used by the claim theorems -/

theorem make_location_missing_store_pub {d stores : Dict} {s : String}
    (hnd : dnodup d)
    (ht : dlookup d "type" = some (.str "publisher"))
    (hpre : dlookup d "prefix" = none ∨ ∃ p, dlookup d "prefix" = some (.str p))
    (hst : dlookup d "store" = some (.str s))
    (hmiss : dlookup stores s = none) :
    make_location d stores = .error (.keyError s) := by
  have hM : dnodup (dupdate default_location_publisher d) :=
    dnodup_dupdate d (by decide)
  have hc2 : dnodup (derase (dupdate default_location_publisher d) "type") :=
    dnodup_derase "type" hM
  rw [make_location_pub_path stores hnd ht]
  apply location_finish_missing_store _ hc2
  · have hp2 : dlookup (derase (dupdate default_location_publisher d) "type") "prefix"
        = dlookup d "prefix" := by
      rw [dlookup_derase_ne hM (by decide),
          dlookup_dupdate default_location_publisher "prefix" hnd]
      cases dlookup d "prefix" <;> rfl
    rw [hp2]
    exact hpre
  · rw [dlookup_derase_ne hM (by decide)]
    exact dlookup_dupdate_user hnd hst
  · exact hmiss

theorem make_location_missing_store_sub {d stores : Dict} {s : String}
    (hnd : dnodup d)
    (ht : dlookup d "type" = some (.str "subscriber"))
    (hpoll : dlookup d "polling" = none)
    (hpre : dlookup d "prefix" = none ∨ ∃ p, dlookup d "prefix" = some (.str p))
    (hst : dlookup d "store" = some (.str s))
    (hmiss : dlookup stores s = none) :
    make_location d stores = .error (.keyError s) := by
  have hM : dnodup (dupdate default_location_subscriber d) :=
    dnodup_dupdate d (by decide)
  have hc1 : dnodup (derase (dupdate default_location_subscriber d) "type") :=
    dnodup_derase "type" hM
  have hc2 : dnodup (derase (derase (dupdate default_location_subscriber d) "type") "polling") :=
    dnodup_derase "polling" hc1
  rw [make_location_sub_path_default stores hnd ht hpoll]
  apply location_finish_missing_store _ hc2
  · have hp2 : dlookup
        (derase (derase (dupdate default_location_subscriber d) "type") "polling")
        "prefix" = dlookup d "prefix" := by
      rw [dlookup_derase_ne hc1 (by decide), dlookup_derase_ne hM (by decide),
          dlookup_dupdate default_location_subscriber "prefix" hnd]
      cases dlookup d "prefix" <;> rfl
    rw [hp2]
    exact hpre
  · rw [dlookup_derase_ne hc1 (by decide), dlookup_derase_ne hM (by decide)]
    exact dlookup_dupdate_user hnd hst
  · exact hmiss

theorem resolve_stores_list_lookup {sd m : Dict}
    (h : resolve_stores_list sd = .ok m) {k : String} {d : Dict}
    (hk : dlookup sd k = some (.dict d)) :
    ∃ rs, make_store d = .ok rs ∧ dlookup m k = some rs := by
  induction sd generalizing m with
  | nil => simp [dlookup] at hk
  | cons e rest ih =>
      obtain ⟨k0, v0⟩ := e
      unfold resolve_stores_list at h
      split at h
      · exact absurd h (by simp)
      · rename_i rs hrs
        split at h
        · exact absurd h (by simp)
        · rename_i others hothers
          simp only [Except.ok.injEq] at h
          subst h
          by_cases hk0 : k0 = k
          · subst hk0
            simp only [dlookup, if_pos rfl] at hk
            obtain rfl := Option.some.inj hk
            refine ⟨rs, ?_, by simp [dlookup]⟩
            simpa [make_store_value] using hrs
          · simp only [dlookup, if_neg hk0] at hk
            obtain ⟨rs2, hmk, hlk⟩ := ih hothers hk
            exact ⟨rs2, hmk, by simp [dlookup, hk0, hlk]⟩

/-! ## Claim theorems -/

/-- C1 (counterexample): a location whose `store` names the absent store
`"nope"` makes the factory raise `KeyError("nope")` — an uncaught dict-lookup
fault, not a `ConfigError`/`CommandError` with message
"unknown store reference" as the claim asserts; startup still aborts before
the listener binds. -/
theorem c1_counterexample :
    make_location [("type", Value.str "publisher"), ("store", Value.str "nope")]
        default_resolved_stores = .error (.keyError "nope") ∧
    Command.main "" false
        [("locations", Value.list
          [Value.dict [("type", Value.str "publisher"), ("store", Value.str "nope")]])]
      = .failed (.keyError "nope") ∧
    (Err.keyError "nope" ≠ Err.commandError "unknown store reference") :=
  ⟨rfl, rfl, by decide⟩

/-- C1 (amended): a merged location configuration (publisher, or subscriber
with the default polling) whose `store` value names a key absent from the
resolved store map makes `make_location` fail with an uncaught
`KeyError` carrying the missing name — not a `ConfigError` naming
"unknown store reference" — and the server still does not bind its listening
socket, because the error aborts `Command.run` before `listen`. -/
theorem c1_missing_store_is_keyerror :
    (∀ (d stores : Dict) (s : String), dnodup d →
      dlookup d "type" = some (.str "publisher") →
      (dlookup d "prefix" = none ∨ ∃ p, dlookup d "prefix" = some (.str p)) →
      dlookup d "store" = some (.str s) →
      dlookup stores s = none →
      make_location d stores = .error (.keyError s)) ∧
    (∀ (d stores : Dict) (s : String), dnodup d →
      dlookup d "type" = some (.str "subscriber") →
      dlookup d "polling" = none →
      (dlookup d "prefix" = none ∨ ∃ p, dlookup d "prefix" = some (.str p)) →
      dlookup d "store" = some (.str s) →
      dlookup stores s = none →
      make_location d stores = .error (.keyError s)) ∧
    (∀ (d : Dict) (s : String), dnodup d →
      dlookup d "type" = some (.str "publisher") →
      (dlookup d "prefix" = none ∨ ∃ p, dlookup d "prefix" = some (.str p)) →
      dlookup d "store" = some (.str s) →
      dlookup default_resolved_stores s = none →
      Command.main "" false [("locations", .list [.dict d])] = .failed (.keyError s)) := by
  refine ⟨?_, ?_, ?_⟩
  · intro d stores s hnd ht hpre hst hmiss
    exact make_location_missing_store_pub hnd ht hpre hst hmiss
  · intro d stores s hnd ht hpoll hpre hst hmiss
    exact make_location_missing_store_sub hnd ht hpoll hpre hst hmiss
  · intro d s hnd ht hpre hst hmiss
    rw [main_default_addr, run_locations_override]
    simp only [resolve_locations, resolve_location_value]
    rw [make_location_missing_store_pub hnd ht hpre hst hmiss]

/-- C1 (witness): the amended theorem applied to a concrete publisher
location referencing the missing store `"nope"`. -/
theorem c1_witness :
    make_location [("type", Value.str "publisher"), ("store", Value.str "nope")]
        default_resolved_stores = .error (.keyError "nope") ∧
    make_location [("type", Value.str "subscriber"), ("store", Value.str "gone")]
        default_resolved_stores = .error (.keyError "gone") ∧
    Command.main "" false
        [("locations", Value.list
          [Value.dict [("type", Value.str "publisher"), ("store", Value.str "nope")]])]
      = .failed (.keyError "nope") :=
  ⟨c1_missing_store_is_keyerror.1
      [("type", Value.str "publisher"), ("store", Value.str "nope")]
      default_resolved_stores "nope" (by decide) rfl (Or.inl rfl) rfl rfl,
   c1_missing_store_is_keyerror.2.1
      [("type", Value.str "subscriber"), ("store", Value.str "gone")]
      default_resolved_stores "gone" (by decide) rfl rfl (Or.inl rfl) rfl rfl,
   c1_missing_store_is_keyerror.2.2
      [("type", Value.str "publisher"), ("store", Value.str "nope")]
      "nope" (by decide) rfl (Or.inl rfl) rfl rfl⟩

/-- C2 (counterexample): an entry with no `type` key makes the merge step
itself fail — `default_store.get(store_dict['type'], \x7b\x7d)` raises
`KeyError('type')` before any factory dispatch — so merging does not
"never fail by itself". -/
theorem c2_counterexample :
    store_merge_conf [] = .error (.keyError "type") ∧
    location_merge_conf [] = .error (.keyError "type") :=
  ⟨rfl, rfl⟩

/-- C2 (amended): for every store and location entry that carries a `type`
key with a hashable value (any scalar, including unknown type names — those
are rejected only at factory dispatch), the merge step — default-bundle
lookup, shallow copy, overlay of user keys — completes without raising;
an entry with no `type` key raises `KeyError` in the default-bundle lookup,
and an unhashable `type` value (a dict or list) raises `TypeError` there. -/
theorem c2_merge_never_fails_given_type :
    ∀ (d : Dict) (tv : Value), dlookup d "type" = some tv →
      pyHashable tv = true →
      (∃ c, store_merge_conf d = .ok c) ∧ (∃ c, location_merge_conf d = .ok c) := by
  intro d tv ht hh
  obtain ⟨bs, _, hs⟩ := store_merge_conf_ok ht hh
  obtain ⟨bl, _, hl⟩ := location_merge_conf_ok ht hh
  exact ⟨⟨_, hs⟩, ⟨_, hl⟩⟩

/-- C2 (witness): the amended theorem at a store entry with the unknown
type `"sqlite"` — the merge succeeds there. -/
theorem c2_witness :
    (∃ c, store_merge_conf [("type", Value.str "sqlite")] = .ok c) ∧
    (∃ c, location_merge_conf [("type", Value.str "sqlite")] = .ok c) :=
  c2_merge_never_fails_given_type [("type", Value.str "sqlite")]
    (Value.str "sqlite") rfl rfl

/-- C3: with the built-in defaults and no overrides, startup binds exactly
two locations, in input order — the Publisher at `/publisher/(.+)` then the
LongPollingSubscriber at `/subscriber/(.+)` — each with a `registry` kwarg
that is the registry of the single in-memory store named `"default"`; and
the locations map always resolves positions one-to-one, in order. -/
theorem c3_default_config_bindings :
    Command.main "" false [] =
      .bound
        [⟨.str "/publisher/(.+)", .publisherCls,
          [("registry", .registryV default_memory_backend),
           ("create_on_post", .boolV true)]⟩,
         ⟨.str "/subscriber/(.+)", .longPollingSubscriberCls,
          [("registry", .registryV default_memory_backend),
           ("create_on_get", .boolV false)]⟩]
        (.str "8001") (.str "127.0.0.1") ∧
    make_stores defaults_store =
      .ok [("default", .dict [("store", default_memory_backend),
                              ("registry", .registryV default_memory_backend)])] ∧
    (∀ (lvs : List Value) (stores : Dict) (bs : List LocationBinding),
      resolve_locations lvs stores = .ok bs →
      bs.length = lvs.length ∧
        ∀ (i : Nat) (b : LocationBinding), bs[i]? = some b →
          ∃ v, lvs[i]? = some v ∧ resolve_location_value v stores = .ok b) :=
  ⟨rfl, rfl, fun _ _ _ h => resolve_locations_nth h⟩

/-- C3 (witness): the order clause applied to the concrete default location
list. -/
theorem c3_witness :
    ∃ bs, resolve_locations default_locations_list
        [("default", .dict [("store", default_memory_backend),
                            ("registry", .registryV default_memory_backend)])] = .ok bs ∧
      bs.length = default_locations_list.length :=
  ⟨_, rfl,
    (c3_default_config_bindings.2.2 default_locations_list
      [("default", .dict [("store", default_memory_backend),
                          ("registry", .registryV default_memory_backend)])] _ rfl).1⟩

/-- C4: the merged store configuration is the per-type default bundle
shallow-copied and overwritten key-by-key by the user entry — a user value
fully replaces the default value (non-recursively); in particular
`\x7btype: "memory"\x7d` merges to `min_messages=0, max_messages=0,
message_timeout=0` plus the `type` key, and supplying only `max_messages: 50`
overrides exactly that key. -/
theorem c4_store_merge_overlay :
    (∀ (base u : Dict) (k : String) (v : Value), dnodup u →
      dlookup u k = some v → dlookup (dupdate base u) k = some v) ∧
    store_merge_conf [("type", .str "memory")] =
      .ok [("min_messages", .intV 0), ("max_messages", .intV 0),
           ("message_timeout", .intV 0), ("type", .str "memory")] ∧
    store_merge_conf [("type", .str "memory"), ("max_messages", .intV 50)] =
      .ok [("min_messages", .intV 0), ("max_messages", .intV 50),
           ("message_timeout", .intV 0), ("type", .str "memory")] :=
  ⟨fun _ _ _ _ hnd h => dlookup_dupdate_user hnd h, rfl, rfl⟩

/-- C4 (witness): the overlay clause at a nested user value — the user's
dict value for `"host"` fully replaces the default string value rather than
being merged field-by-field. -/
theorem c4_witness :
    dlookup (dupdate default_store_redis
        [("host", Value.dict [("inner", Value.intV 1)])]) "host"
      = some (Value.dict [("inner", Value.intV 1)]) :=
  c4_store_merge_overlay.1 default_store_redis
    [("host", Value.dict [("inner", Value.intV 1)])] "host"
    (Value.dict [("inner", Value.intV 1)]) (by decide) rfl

/-- C5: a `stores` value carrying a top-level `type` key is treated as one
store config registered under the name `"default"`; otherwise every key is a
store name whose dict value is resolved independently into the returned
name-to-store map. -/
theorem c5_stores_single_or_map :
    (∀ sd : Dict, (dlookup sd "type").isSome = true →
      make_stores sd = (make_store sd).map (fun rs => [("default", rs)])) ∧
    (∀ (sd m : Dict) (k : String) (d : Dict),
      (dlookup sd "type").isSome = false →
      make_stores sd = .ok m → dlookup sd k = some (.dict d) →
      ∃ rs, make_store d = .ok rs ∧ dlookup m k = some rs) := by
  constructor
  · intro sd h
    exact make_stores_single h
  · intro sd m k d hno hok hk
    rw [make_stores, hno] at hok
    exact resolve_stores_list_lookup (by simpa using hok) hk

/-- C5 (witness): both clauses at concrete inputs — a bare single-store
config becomes the store `"default"`, and a two-entry name map resolves the
key `"a"` independently. -/
theorem c5_witness :
    make_stores [("type", Value.str "memory")] =
      (make_store [("type", Value.str "memory")]).map
        (fun rs => [("default", rs)]) ∧
    ∃ rs, make_store [("type", Value.str "memory")] = .ok rs ∧
      ∃ m, make_stores [("a", Value.dict [("type", Value.str "memory")])] = .ok m ∧
        dlookup m "a" = some rs := by
  refine ⟨c5_stores_single_or_map.1 [("type", Value.str "memory")] rfl, ?_⟩
  obtain ⟨rs, hmk, hlk⟩ := c5_stores_single_or_map.2
    [("a", Value.dict [("type", Value.str "memory")])] _ "a"
    [("type", Value.str "memory")] rfl rfl rfl
  exact ⟨rs, hmk, _, rfl, hlk⟩

/-- C6: an unrecognized string discriminator — a store `type` other than
memory/redis, a location `type` other than publisher/subscriber, or a
subscriber `polling` other than long/interval — makes the corresponding
factory raise a fatal `CommandError` whose message names the offending value
("Invalid store type", "Invalid location type", "Invalid polling"), and
startup fails before the listener binds. -/
theorem c6_invalid_discriminators :
    (∀ (d : Dict) (t : String), dnodup d →
      dlookup d "type" = some (.str t) → t ≠ "memory" → t ≠ "redis" →
      make_store d =
        .error (.commandError ("Invalid store type \"" ++ t ++ "\".")) ∧
      Command.main "" false [("store", .dict d)] =
        .failed (.commandError ("Invalid store type \"" ++ t ++ "\"."))) ∧
    (∀ (d : Dict) (t : String), dnodup d →
      dlookup d "type" = some (.str t) → t ≠ "publisher" → t ≠ "subscriber" →
      make_location d default_resolved_stores =
        .error (.commandError ("Invalid location type \"" ++ t ++ "\".")) ∧
      Command.main "" false [("locations", .list [.dict d])] =
        .failed (.commandError ("Invalid location type \"" ++ t ++ "\"."))) ∧
    (∀ (d : Dict) (p : String), dnodup d →
      dlookup d "type" = some (.str "subscriber") →
      dlookup d "polling" = some (.str p) → p ≠ "long" → p ≠ "interval" →
      make_location d default_resolved_stores =
        .error (.commandError ("Invalid polling \"" ++ p ++ "\".")) ∧
      Command.main "" false [("locations", .list [.dict d])] =
        .failed (.commandError ("Invalid polling \"" ++ p ++ "\"."))) := by
  refine ⟨?_, ?_, ?_⟩
  · intro d t hnd ht hm hr
    have hstore := make_store_invalid_type hnd ht hm hr
    refine ⟨hstore, ?_⟩
    rw [main_default_addr, run_store_override]
    rw [make_stores_single (by rw [ht]; rfl), hstore]
    rfl
  · intro d t hnd ht hp hs
    have hloc := make_location_invalid_type default_resolved_stores hnd ht hp hs
    refine ⟨hloc, ?_⟩
    rw [main_default_addr, run_locations_override]
    simp only [resolve_locations, resolve_location_value]
    rw [hloc]
  · intro d p hnd ht hpoll h1 h2
    have hloc := make_location_invalid_polling default_resolved_stores hnd ht hpoll h1 h2
    refine ⟨hloc, ?_⟩
    rw [main_default_addr, run_locations_override]
    simp only [resolve_locations, resolve_location_value]
    rw [hloc]

/-- C6 (witness): the three clauses at the concrete discriminators
`"sqlite"`, `"gopher"`, and `"burst"`. -/
theorem c6_witness :
    Command.main "" false [("store", .dict [("type", Value.str "sqlite")])] =
      .failed (.commandError "Invalid store type \"sqlite\".") ∧
    Command.main "" false
        [("locations", Value.list [Value.dict [("type", Value.str "gopher")]])] =
      .failed (.commandError "Invalid location type \"gopher\".") ∧
    Command.main "" false
        [("locations", Value.list
          [Value.dict [("type", Value.str "subscriber"),
                       ("polling", Value.str "burst")]])] =
      .failed (.commandError "Invalid polling \"burst\".") :=
  ⟨(c6_invalid_discriminators.1 [("type", Value.str "sqlite")] "sqlite"
      (by decide) rfl (by decide) (by decide)).2,
   (c6_invalid_discriminators.2.1 [("type", Value.str "gopher")] "gopher"
      (by decide) rfl (by decide) (by decide)).2,
   (c6_invalid_discriminators.2.2
      [("type", Value.str "subscriber"), ("polling", Value.str "burst")] "burst"
      (by decide) rfl rfl (by decide) (by decide)).2⟩

/-- C7: an empty `addrport` resolves to port `"8001"` (the `DEFAULT_PORT`
constant) and host `"127.0.0.1"`, or `"::1"` when the IPv6 flag is set, with
`_raw_ipv6` equal to the flag; and the same host-defaulting applies to any
matching input whose host group is empty. -/
theorem c7_empty_addr_defaults :
    (∀ u6 : Bool, Command.handle "" u6 =
      .ok ⟨if u6 then "::1" else "127.0.0.1", DEFAULT_PORT, u6, u6⟩) ∧
    (∀ (s : String) (m : NaiveIpMatch) (u6 : Bool), s ≠ "" →
      naiveipMatch s = some m → m.addr = none →
      Command.handle s u6 =
        .ok ⟨if u6 then "::1" else "127.0.0.1", m.port, u6, u6⟩) := by
  constructor
  · intro u6
    cases u6 <;> rfl
  · intro s m u6 hs h ha
    exact handle_empty_host u6 hs h ha

/-- C7 (witness): the host-defaulting clause at the bare-port input
`"8080"` with the IPv6 flag set. -/
theorem c7_witness :
    Command.handle "8080" true = .ok ⟨"::1", "8080", true, true⟩ :=
  c7_empty_addr_defaults.2 "8080" ⟨none, false, false, false, "8080"⟩ true
    (by decide) rfl rfl

/-- C8: a bracketed IPv6 host has its brackets stripped (`addr[1:-1]`) and
forces `use_ipv6 = true` and `_raw_ipv6 = true`; and the textual rendering
brackets the host exactly when `_raw_ipv6` is true. -/
theorem c8_bracketed_ipv6 :
    (∀ (s a : String) (m : NaiveIpMatch) (u6 : Bool), s ≠ "" →
      naiveipMatch s = some m → m.addr = some a → m.isIpv6 = true →
      stripEnds a ≠ "" →
      Command.handle s u6 = .ok ⟨stripEnds a, m.port, true, true⟩) ∧
    (∀ b : BindAddress,
      renderAddr b = if b.raw_ipv6 then "[" ++ b.addr ++ "]" else b.addr) := by
  constructor
  · intro s a m u6 hs h ha h6 hne
    exact handle_bracketed u6 hs h ha h6 hne
  · exact renderAddr_eq

/-- C8 (witness): the input `"[::1]:8000"` without the flag still yields the
stripped host `"::1"`, `use_ipv6 = true`, `_raw_ipv6 = true`, and renders
back as `"[::1]"`. -/
theorem c8_witness :
    Command.handle "[::1]:8000" false = .ok ⟨stripEnds "[::1]", "8000", true, true⟩ ∧
    renderAddr ⟨"::1", "8000", true, true⟩ =
      (if true then "[" ++ "::1" ++ "]" else "::1") :=
  ⟨c8_bracketed_ipv6.1 "[::1]:8000" "[::1]"
      ⟨some "[::1]", false, true, false, "8000"⟩ false (by decide) rfl rfl rfl
      (by decide),
   c8_bracketed_ipv6.2 ⟨"::1", "8000", true, true⟩⟩

/-- C9: every malformed non-empty address string fails before the server is
started: a string the regex rejects raises `CommandError` (and a matched
port is always all digits, so a non-digit port can only fall in that case);
with the IPv6 flag, a matched host that is neither a bracketed IPv6 literal
nor an FQDN (the bare-IPv4 alternative) raises
`CommandError("... is not a valid IPv6 address.")`.  In each case
`Command.main` ends `.failed` — no `BindAddress` is produced and `run` is
never reached. -/
theorem c9_malformed_addresses_fail :
    (∀ (s : String) (u6 : Bool) (ps : Dict), s ≠ "" →
      naiveipMatch s = none →
      Command.main s u6 ps = .failed (.commandError
        ("\"" ++ s ++ "\" is not a valid port number or address:port pair."))) ∧
    (∀ (s : String) (m : NaiveIpMatch), naiveipMatch s = some m →
      pyIsdigit m.port = true) ∧
    (∀ (s a : String) (m : NaiveIpMatch) (ps : Dict), s ≠ "" →
      naiveipMatch s = some m → m.addr = some a →
      m.isIpv6 = false → m.isFqdn = false →
      Command.main s true ps = .failed (.commandError
        ("\"" ++ a ++ "\" is not a valid IPv6 address."))) := by
  refine ⟨?_, ?_, ?_⟩
  · intro s u6 ps hs h
    unfold Command.main
    rw [handle_no_match u6 hs h]
  · intro s m h
    exact naiveip_port_digits h
  · intro s a m ps hs h ha h6 hf
    unfold Command.main
    rw [handle_ipv6_flag_bad_host hs h ha h6 hf]

/-- C9 (witness): the clauses at `"not:a:port"` (rejected by the regex) and
`"127.0.0.1:80"` with the IPv6 flag (bare IPv4 host). -/
theorem c9_witness :
    Command.main "not:a:port" false [] = .failed (.commandError
      "\"not:a:port\" is not a valid port number or address:port pair.") ∧
    pyIsdigit "80" = true ∧
    Command.main "127.0.0.1:80" true [] = .failed (.commandError
      "\"127.0.0.1\" is not a valid IPv6 address.") :=
  ⟨c9_malformed_addresses_fail.1 "not:a:port" false [] (by decide) rfl,
   c9_malformed_addresses_fail.2.1 "127.0.0.1:80"
     ⟨some "127.0.0.1", true, false, false, "80"⟩ rfl,
   c9_malformed_addresses_fail.2.2 "127.0.0.1:80" "127.0.0.1"
     ⟨some "127.0.0.1", true, false, false, "80"⟩ [] (by decide) rfl rfl rfl rfl⟩

/-- C10: in the heap model, `make_store`, `make_location`, and the
`make_stores` comprehension never write any pre-existing cell — in
particular neither the module-level default dicts (cells 0-3) nor their
argument dicts — every pop and overlay lands on the freshly allocated copy;
consequently, when the default cells hold the module defaults, the heap
factories compute the pure factories of their argument cell, and calling a
factory a second time on the same (unchanged) argument yields the same
result. -/
theorem c10_factories_no_mutation :
    ∀ (h : Heap) (a : Nat) (stores : Dict) (entries : List (String × Nat)),
      heapFrame h (make_store_st h a).1 ∧
      heapFrame h (make_location_st h a stores).1 ∧
      heapFrame h (make_stores_st h entries).1 ∧
      (h.read 0 = default_store_redis → h.read 1 = default_store_memory →
        4 ≤ h.next → a < h.next →
        (make_store_st h a).2 = make_store (h.read a) ∧
        (make_store_st (make_store_st h a).1 a).2 = (make_store_st h a).2) ∧
      (h.read 2 = default_location_subscriber →
        h.read 3 = default_location_publisher →
        4 ≤ h.next → a < h.next →
        (make_location_st h a stores).2 = make_location (h.read a) stores ∧
        (make_location_st (make_location_st h a stores).1 a stores).2 =
          (make_location_st h a stores).2) := by
  intro h a stores entries
  refine ⟨make_store_st_frame h a, make_location_st_frame h a stores,
          make_stores_st_frame h entries, ?_, ?_⟩
  · intro h0 h1 hn ha
    have hf := make_store_st_frame h a
    have e0 : (make_store_st h a).1.read 0 = default_store_redis :=
      (hf.2 0 (by omega)).trans h0
    have e1 : (make_store_st h a).1.read 1 = default_store_memory :=
      (hf.2 1 (by omega)).trans h1
    have ea : (make_store_st h a).1.read a = h.read a := hf.2 a ha
    refine ⟨make_store_st_spec a h0 h1, ?_⟩
    rw [make_store_st_spec a e0 e1, make_store_st_spec a h0 h1, ea]
  · intro h2 h3 hn ha
    have hf := make_location_st_frame h a stores
    have e2 : (make_location_st h a stores).1.read 2 = default_location_subscriber :=
      (hf.2 2 (by omega)).trans h2
    have e3 : (make_location_st h a stores).1.read 3 = default_location_publisher :=
      (hf.2 3 (by omega)).trans h3
    have ea : (make_location_st h a stores).1.read a = h.read a := hf.2 a ha
    refine ⟨make_location_st_spec a stores h2 h3, ?_⟩
    rw [make_location_st_spec a stores e2 e3, make_location_st_spec a stores h2 h3, ea]

/-- C10 (witness): the theorem applied to a five-cell heap holding the four
module defaults and one store config at address 4; the determinism clauses
are instantiated with their hypotheses discharged concretely. -/
theorem c10_witness :
    (∀ i, i < (5:Nat) →
      ((make_store_st
          ⟨fun i => if i = 0 then default_store_redis
                    else if i = 1 then default_store_memory
                    else if i = 2 then default_location_subscriber
                    else if i = 3 then default_location_publisher
                    else if i = 4 then [("type", Value.str "memory")] else [],
            5⟩ 4).1).read i =
        (⟨fun i => if i = 0 then default_store_redis
                   else if i = 1 then default_store_memory
                   else if i = 2 then default_location_subscriber
                   else if i = 3 then default_location_publisher
                   else if i = 4 then [("type", Value.str "memory")] else [],
          5⟩ : Heap).read i) ∧
    (make_store_st
        ⟨fun i => if i = 0 then default_store_redis
                  else if i = 1 then default_store_memory
                  else if i = 2 then default_location_subscriber
                  else if i = 3 then default_location_publisher
                  else if i = 4 then [("type", Value.str "memory")] else [],
          5⟩ 4).2 =
      make_store [("type", Value.str "memory")] := by
  have hc := c10_factories_no_mutation
    ⟨fun i => if i = 0 then default_store_redis
              else if i = 1 then default_store_memory
              else if i = 2 then default_location_subscriber
              else if i = 3 then default_location_publisher
              else if i = 4 then [("type", Value.str "memory")] else [],
      5⟩ 4 [] []
  refine ⟨fun i hi => hc.1.2 i hi, ?_⟩
  have := (hc.2.2.2.1 rfl rfl (by decide) (by decide)).1
  exact this
